import Mathlib

/-!
Verification development for the `r2a_Ingrid` adaptive-bitrate (ABR) controller
(`src/r2a/r2a_Ingrid.py`).

The Python source is shallowly embedded: Python floats are modelled as `ℚ`,
Python `int` quality indices as `ℕ` (the controller initialises the index to 0
and every update clamps it to `max(0, ...)`, so it is never negative), Python
list state as `List ℚ`, and the mutable objects as explicit record-passing.
Python's dynamic attribute lookup and list indexing can raise
(`AttributeError`, `IndexError`); the embedding returns `Except`/`Option` at
exactly those points.  Wall-clock timestamps (`time.time()`) are passed in as
an explicit `now : ℚ` argument; the parsed manifest (`parse_mpd(...).get_qi()`)
and message payload sizes are external inputs and enter the handlers as
arguments.
-/

namespace RedesR2A

/-- Python's built-in `round`: round to nearest integer, ties to the even
neighbour (banker's rounding).  Used at line 197 of the source,
`round(current_quality_level - tau_value + theta_value)`. -/
def pyRound (q : ℚ) : ℤ :=
  if q - ⌊q⌋ < 1/2 then ⌊q⌋
  else if 1/2 < q - ⌊q⌋ then ⌊q⌋ + 1
  else if Even ⌊q⌋ then ⌊q⌋ else ⌊q⌋ + 1

/-- Messages forwarded by the controller: responses flow upward
(`self.send_up`), requests flow downward (`self.send_down`); an outgoing
segment request may carry an attached quality identifier
(`segment_request.add_quality_id(...)`). -/
inductive Action
  | send_up (msg : ℕ)
  | send_down (msg : ℕ) (quality_id : Option ℕ)
deriving DecidableEq, Repr

/-- State of the `Adaptive_Segment_Manager` class (source lines 120-211):
the `deque(maxlen=max_throughput_records)` of throughput records together with
the cached mean and variability fields. -/
structure Adaptive_Segment_Manager where
  maximum_throughput_records : ℕ
  throughput_records : List ℚ
  throughput_mean : ℚ
  throughput_variability : ℚ
deriving DecidableEq, Repr

namespace Adaptive_Segment_Manager

/-- `Adaptive_Segment_Manager.__init__` (lines 121-130): empty deque with the
given capacity, mean and variability initialised to 0. -/
def init (max_throughput_records : ℕ) : Adaptive_Segment_Manager :=
  { maximum_throughput_records := max_throughput_records
    throughput_records := []
    throughput_mean := 0
    throughput_variability := 0 }

/-- `calculate_mean_and_variability` (lines 142-150): if the record list is
empty both statistics are 0; otherwise the arithmetic mean and the population
variance (mean of squared deviations). -/
def calculate_mean_and_variability (s : Adaptive_Segment_Manager) :
    Adaptive_Segment_Manager :=
  if s.throughput_records = [] then
    { s with throughput_mean := 0, throughput_variability := 0 }
  else
    let m := s.throughput_records.sum / (s.throughput_records.length : ℚ)
    { s with
        throughput_mean := m
        throughput_variability :=
          (s.throughput_records.map (fun v => (v - m) ^ 2)).sum /
            (s.throughput_records.length : ℚ) }

/-- `update_throughput_history` (lines 132-140): clear the deque, extend it
with the given values (a `deque` with `maxlen=N` keeps only the last `N`
elements of the extension), then recompute mean and variability. -/
def update_throughput_history (s : Adaptive_Segment_Manager)
    (recent_throughput_values : List ℚ) : Adaptive_Segment_Manager :=
  calculate_mean_and_variability
    { s with
        throughput_records :=
          recent_throughput_values.drop
            (recent_throughput_values.length - s.maximum_throughput_records) }

/-- `calculate_probability` (lines 152-157):
`mean / (mean + variability)` unless the denominator is 0, in which case 0. -/
def calculate_probability (s : Adaptive_Segment_Manager) : ℚ :=
  if s.throughput_mean + s.throughput_variability ≠ 0 then
    s.throughput_mean / (s.throughput_mean + s.throughput_variability)
  else 0

/-- `calculate_tau_and_theta` (lines 159-178).
`tau = (1-p) * (current - quality_levels[max(0, current-1)])` and
`theta = p * (quality_levels[min(len-1, current+1)] - current)`.
With `current : ℕ`, Python's `max(0, current - 1)` is `ℕ` subtraction
`current - 1`.  The Python list subscripts raise `IndexError` when out of
range; the embedding returns `none` there. -/
def calculate_tau_and_theta (s : Adaptive_Segment_Manager)
    (current_quality_level : ℕ) (quality_levels : List ℚ) : Option (ℚ × ℚ) :=
  let probability := s.calculate_probability
  match quality_levels[current_quality_level - 1]?,
        quality_levels[min (quality_levels.length - 1)
          (current_quality_level + 1)]? with
  | some q_prev, some q_next =>
      some ((1 - probability) * ((current_quality_level : ℚ) - q_prev),
            probability * (q_next - (current_quality_level : ℚ)))
  | _, _ => none

/-- `update_video_quality` (lines 180-200): on an empty level list return the
current index unchanged; otherwise build `list(range(len(quality_level_list)))`,
compute tau and theta over those indices, round
`current - tau + theta` (Python `round`, half-to-even) and clamp the result to
`[0, len - 1]`. -/
def update_video_quality (s : Adaptive_Segment_Manager)
    (current_quality_level : ℕ) {α : Type} (quality_level_list : List α) :
    Option ℕ :=
  if quality_level_list.isEmpty then some current_quality_level
  else
    let quality_level_indices : List ℚ :=
      (List.range quality_level_list.length).map (fun i : ℕ => (i : ℚ))
    match s.calculate_tau_and_theta current_quality_level
        quality_level_indices with
    | none => none
    | some (tau_value, theta_value) =>
        some (max 0 (min ((quality_level_list.length : ℤ) - 1)
          (pyRound ((current_quality_level : ℚ) - tau_value + theta_value)))).toNat

/-- The decision pipeline the controller runs on a segment request: load the
window into the manager (`update_throughput_history`) and then take the
quality decision (`update_video_quality`) from it.  This composite is the
`decide(window, currentIndex, levels)` function of the specification. -/
def decide (window : List ℚ) (current_quality_level : ℕ)
    (quality_level_list : List ℕ) : Option ℕ :=
  ((init 5).update_throughput_history window).update_video_quality
    current_quality_level quality_level_list

end Adaptive_Segment_Manager

/-- The attribute call `self.segment_size_manager.update_quality(...)` made by
`process_segment_size_request` at source line 64.  `Adaptive_Segment_Manager`
defines no attribute named `update_quality` — its methods are
`update_throughput_history`, `calculate_mean_and_variability`,
`calculate_probability`, `calculate_tau_and_theta`, `update_video_quality` and
`update_throughput_list` — so Python raises `AttributeError` at the attribute
lookup, before the call happens.  The embedding records that failure as an
`Except.error`. -/
def update_quality_call (_mgr : Adaptive_Segment_Manager)
    (_current : Option ℕ) (_levels : List ℕ) : Except String ℕ :=
  Except.error "AttributeError: update_quality"

/-- State of the `r2a_Ingrid` controller class (lines 5-115).
`request_start_time` and `active_quality_level` are `Option`s because
`release_allocated_resources` assigns Python `None` to both. -/
structure r2a_Ingrid where
  max_throughput_records : ℕ
  recent_throughputs : List ℚ
  request_start_time : Option ℚ
  quality_options : List ℕ
  active_quality_level : Option ℕ
  segment_size_manager : Adaptive_Segment_Manager
deriving DecidableEq, Repr

namespace r2a_Ingrid

/-- `r2a_Ingrid.__init__` (lines 6-19): capacity 5, empty history,
`request_start_time = 0`, no quality options yet, active level 0, and a fresh
`Adaptive_Segment_Manager` with the same capacity. -/
def init : r2a_Ingrid :=
  { max_throughput_records := 5
    recent_throughputs := []
    request_start_time := some 0
    quality_options := []
    active_quality_level := some 0
    segment_size_manager := Adaptive_Segment_Manager.init 5 }

/-- Body of `add_throughput_record` (lines 93-101) acting on the
`recent_throughputs` list: if the list already holds `cap` values, `pop(0)`
drops the oldest, then the new value is appended. -/
def add_throughput_record (cap : ℕ) (l : List ℚ) (new_value : ℚ) : List ℚ :=
  (if cap ≤ l.length then l.drop 1 else l) ++ [new_value]

/-- `process_xml_transaction` (lines 21-31): on a (non-`None`) manifest
request, record the current time and forward the message downward. -/
def process_xml_transaction (st : r2a_Ingrid) (now : ℚ) (msg : ℕ) :
    r2a_Ingrid × List Action :=
  ({ st with request_start_time := some now }, [Action.send_down msg none])

/-- `process_xml_response` (lines 32-49): store the quality list extracted
from the parsed manifest (`parse_mpd(...).get_qi()`, an external input here
given as `qi`), compute the elapsed time, record a throughput sample
`bit_length / elapsed` only when `elapsed > 0`, and forward the response
upward.  If `request_start_time` is `None` the subtraction raises
(`TypeError`). -/
def process_xml_response (st : r2a_Ingrid) (now : ℚ) (qi : List ℕ)
    (bit_length : ℚ) (msg : ℕ) : Except String (r2a_Ingrid × List Action) :=
  let st1 := { st with quality_options := qi }
  match st1.request_start_time with
  | none => Except.error "TypeError: unsupported operand"
  | some t0 =>
      let elapsed_time := now - t0
      let st2 :=
        if 0 < elapsed_time then
          { st1 with
              recent_throughputs :=
                add_throughput_record st1.max_throughput_records
                  st1.recent_throughputs (bit_length / elapsed_time) }
        else st1
      Except.ok (st2, [Action.send_up msg])

/-- `process_segment_size_request` (lines 51-74): record the request time,
re-synchronise the manager's window from `recent_throughputs`
(`update_throughput_history`), then call
`self.segment_size_manager.update_quality(...)` — which raises
`AttributeError` (see `update_quality_call`); had it returned an index `j`,
the handler would set `active_quality_level := j`, attach
`quality_options[j]` to the request when `0 ≤ j < len(quality_options)`, and
forward the request downward. -/
def process_segment_size_request (st : r2a_Ingrid) (now : ℚ) (msg : ℕ) :
    Except String (r2a_Ingrid × List Action) :=
  let st1 := { st with request_start_time := some now }
  let st2 := { st1 with
    segment_size_manager :=
      st1.segment_size_manager.update_throughput_history st1.recent_throughputs }
  match update_quality_call st2.segment_size_manager st2.active_quality_level
      st2.quality_options with
  | Except.error e => Except.error e
  | Except.ok j =>
      let st3 := { st2 with active_quality_level := some j }
      let attached : Option ℕ :=
        if j < st3.quality_options.length then st3.quality_options[j]? else none
      Except.ok (st3, [Action.send_down msg attached])

/-- `process_segment_size_response` (lines 76-91): compute the elapsed time,
record a throughput sample `bit_length / elapsed` only when `elapsed > 0`,
and forward the response upward. -/
def process_segment_size_response (st : r2a_Ingrid) (now : ℚ)
    (bit_length : ℚ) (msg : ℕ) : Except String (r2a_Ingrid × List Action) :=
  match st.request_start_time with
  | none => Except.error "TypeError: unsupported operand"
  | some t0 =>
      let elapsed_time := now - t0
      let st2 :=
        if 0 < elapsed_time then
          { st with
              recent_throughputs :=
                add_throughput_record st.max_throughput_records
                  st.recent_throughputs (bit_length / elapsed_time) }
        else st
      Except.ok (st2, [Action.send_up msg])

/-- `initialize_system_resources` (lines 103-108): reset the request time to
0, clear the throughput history, set the active quality level to 0. -/
def initialize_system_resources (st : r2a_Ingrid) : r2a_Ingrid :=
  { st with
      request_start_time := some 0
      recent_throughputs := []
      active_quality_level := some 0 }

/-- `release_allocated_resources` (lines 110-115): set `request_start_time`
to `None`, empty the throughput history, set `active_quality_level` to
`None`. -/
def release_allocated_resources (st : r2a_Ingrid) : r2a_Ingrid :=
  { st with
      request_start_time := none
      recent_throughputs := []
      active_quality_level := none }

end r2a_Ingrid

/-- A concrete controller state as it stands after a manifest response: one
recorded throughput sample, a three-entry quality list, active level 0. -/
def ready_example : r2a_Ingrid :=
  { max_throughput_records := 5
    recent_throughputs := [1000]
    request_start_time := some 2
    quality_options := [100, 200, 300]
    active_quality_level := some 0
    segment_size_manager := Adaptive_Segment_Manager.init 5 }

/-! ## Helper lemmas -/

theorem pyRound_intCast (n : ℤ) : pyRound (n : ℚ) = n := by
  unfold pyRound
  norm_num [Int.floor_intCast]

theorem pyRound_natCast (n : ℕ) : pyRound (n : ℚ) = (n : ℤ) := by
  have h : ((n : ℤ) : ℚ) = (n : ℚ) := by push_cast; ring
  rw [← h, pyRound_intCast]

theorem pyRound_le (q : ℚ) : (pyRound q : ℚ) ≤ q + 1/2 := by
  have h1 : (⌊q⌋ : ℚ) ≤ q := Int.floor_le q
  have h2 : q < ⌊q⌋ + 1 := Int.lt_floor_add_one q
  unfold pyRound
  split_ifs <;> push_cast <;> linarith

theorem le_pyRound (q : ℚ) : q - 1/2 ≤ (pyRound q : ℚ) := by
  have h1 : (⌊q⌋ : ℚ) ≤ q := Int.floor_le q
  have h2 : q < ⌊q⌋ + 1 := Int.lt_floor_add_one q
  unfold pyRound
  split_ifs <;> push_cast <;> linarith

namespace Adaptive_Segment_Manager

theorem calculate_probability_bounds (s : Adaptive_Segment_Manager)
    (hm : 0 ≤ s.throughput_mean) (hv : 0 ≤ s.throughput_variability) :
    0 ≤ s.calculate_probability ∧ s.calculate_probability ≤ 1 := by
  unfold calculate_probability
  split_ifs with h
  · have hpos : 0 < s.throughput_mean + s.throughput_variability :=
      lt_of_le_of_ne (by linarith) (Ne.symm h)
    constructor
    · exact div_nonneg hm (le_of_lt hpos)
    · exact (div_le_one hpos).mpr (by linarith)
  · norm_num

theorem calculate_probability_of_zero (s : Adaptive_Segment_Manager)
    (h : s.throughput_mean + s.throughput_variability = 0) :
    s.calculate_probability = 0 := by
  unfold calculate_probability
  simp [h]

theorem calculate_mean_and_variability_nonneg (s : Adaptive_Segment_Manager)
    (h : ∀ x ∈ s.throughput_records, 0 ≤ x) :
    0 ≤ s.calculate_mean_and_variability.throughput_mean ∧
      0 ≤ s.calculate_mean_and_variability.throughput_variability := by
  unfold calculate_mean_and_variability
  split_ifs with hE
  · simp
  · refine ⟨div_nonneg (List.sum_nonneg h) (by positivity), ?_⟩
    refine div_nonneg (List.sum_nonneg ?_) (by positivity)
    intro y hy
    obtain ⟨v, _, rfl⟩ := List.mem_map.mp hy
    positivity

theorem update_throughput_history_nonneg (s : Adaptive_Segment_Manager)
    (recent : List ℚ) (h : ∀ x ∈ recent, 0 ≤ x) :
    0 ≤ (s.update_throughput_history recent).throughput_mean ∧
      0 ≤ (s.update_throughput_history recent).throughput_variability := by
  unfold update_throughput_history
  exact calculate_mean_and_variability_nonneg _
    (fun x hx => h x (List.drop_subset _ _ hx))

theorem calculate_tau_and_theta_range_eq (s : Adaptive_Segment_Manager)
    (c K : ℕ) (hc : c < K) :
    s.calculate_tau_and_theta c ((List.range K).map (fun i : ℕ => (i : ℚ))) =
      some ((1 - s.calculate_probability) * ((c : ℚ) - ((c - 1 : ℕ) : ℚ)),
        s.calculate_probability * (((min (K - 1) (c + 1) : ℕ) : ℚ) - (c : ℚ))) := by
  have hlen : ((List.range K).map (fun i : ℕ => (i : ℚ))).length = K := by simp
  have hprev : c - 1 < K := by omega
  have hnext : min (K - 1) (c + 1) < K := by omega
  unfold calculate_tau_and_theta
  rw [hlen]
  rw [List.getElem?_map, List.getElem?_map,
    List.getElem?_range hprev, List.getElem?_range hnext]
  simp

theorem update_video_quality_eq (s : Adaptive_Segment_Manager) (c : ℕ)
    {α : Type} (levels : List α) (h : levels ≠ []) (hc : c < levels.length) :
    s.update_video_quality c levels =
      some (max 0 (min ((levels.length : ℤ) - 1)
        (pyRound ((c : ℚ) -
          (1 - s.calculate_probability) * ((c : ℚ) - ((c - 1 : ℕ) : ℚ)) +
          s.calculate_probability *
            (((min (levels.length - 1) (c + 1) : ℕ) : ℚ) - (c : ℚ)))))).toNat := by
  unfold update_video_quality
  rw [if_neg (by simpa [List.isEmpty_iff] using h)]
  dsimp only
  rw [calculate_tau_and_theta_range_eq s c levels.length hc]

theorem decide_eq (window : List ℚ) (c : ℕ) (levels : List ℕ)
    (h : levels ≠ []) (hc : c < levels.length) :
    decide window c levels =
      some (max 0 (min ((levels.length : ℤ) - 1)
        (pyRound ((c : ℚ) -
          (1 - ((init 5).update_throughput_history window).calculate_probability) *
            ((c : ℚ) - ((c - 1 : ℕ) : ℚ)) +
          ((init 5).update_throughput_history window).calculate_probability *
            (((min (levels.length - 1) (c + 1) : ℕ) : ℚ) - (c : ℚ)))))).toNat := by
  unfold decide
  exact update_video_quality_eq _ c levels h hc

end Adaptive_Segment_Manager

theorem foldl_add_throughput_record (xs : List ℚ) :
    xs.foldl (r2a_Ingrid.add_throughput_record 5) [] =
      xs.drop (xs.length - 5) := by
  induction xs using List.reverseRecOn with
  | nil => rfl
  | append_singleton ys x ih =>
    rw [List.foldl_append, ih]
    simp only [List.foldl_cons, List.foldl_nil, List.length_append,
      List.length_singleton]
    unfold r2a_Ingrid.add_throughput_record
    have hlen : (ys.drop (ys.length - 5)).length = ys.length - (ys.length - 5) :=
      List.length_drop _ _
    by_cases h5 : 5 ≤ ys.length
    · rw [if_pos (by omega), List.drop_drop,
        show ys.length - 5 + 1 = ys.length + 1 - 5 from by omega,
        List.drop_append_of_le_length (by omega)]
    · rw [if_neg (by omega),
        show ys.length - 5 = 0 from by omega, List.drop_zero,
        show ys.length + 1 - 5 = 0 from by omega, List.drop_zero]

/-- With an empty window the synchronised manager is exactly the freshly
initialised one. -/
theorem update_throughput_history_nil :
    (Adaptive_Segment_Manager.init 5).update_throughput_history [] =
      Adaptive_Segment_Manager.init 5 := rfl

/-- With an empty window, the decision steps one level down:
`decide([], c, levels) = max(0, c - 1)` (`ℕ` subtraction). -/
theorem decide_nil_window (c : ℕ) (levels : List ℕ)
    (h : levels ≠ []) (hc : c < levels.length) :
    Adaptive_Segment_Manager.decide [] c levels = some (c - 1) := by
  rw [Adaptive_Segment_Manager.decide_eq [] c levels h hc,
    update_throughput_history_nil]
  have hp : (Adaptive_Segment_Manager.init 5).calculate_probability = 0 := by
    norm_num [Adaptive_Segment_Manager.calculate_probability,
      Adaptive_Segment_Manager.init]
  rw [hp]
  have harg : (c : ℚ) - (1 - 0) * ((c : ℚ) - ((c - 1 : ℕ) : ℚ)) +
      0 * (((min (levels.length - 1) (c + 1) : ℕ) : ℚ) - (c : ℚ)) =
        ((c - 1 : ℕ) : ℚ) := by ring
  rw [harg, pyRound_natCast]
  have hK : 1 ≤ levels.length := List.length_pos.mpr h
  congr 1
  omega

theorem pyRound_one : pyRound (1 : ℚ) = 1 := by
  rw [show (1 : ℚ) = ((1 : ℤ) : ℚ) from by norm_num, pyRound_intCast]

theorem pyRound_two : pyRound (2 : ℚ) = 2 := by
  rw [show (2 : ℚ) = ((2 : ℤ) : ℚ) from by norm_num, pyRound_intCast]

/-- Syncing the constant window `[1000, 1000, 1000, 1000, 1000]` gives
mean 1000 and variability 0. -/
theorem update_throughput_history_const1000 :
    (Adaptive_Segment_Manager.init 5).update_throughput_history
        [1000, 1000, 1000, 1000, 1000] =
      { maximum_throughput_records := 5
        throughput_records := [1000, 1000, 1000, 1000, 1000]
        throughput_mean := 1000
        throughput_variability := 0 } := by
  unfold Adaptive_Segment_Manager.update_throughput_history
    Adaptive_Segment_Manager.calculate_mean_and_variability
    Adaptive_Segment_Manager.init
  norm_num
  simp

theorem calculate_probability_const1000 :
    ((Adaptive_Segment_Manager.init 5).update_throughput_history
      [1000, 1000, 1000, 1000, 1000]).calculate_probability = 1 := by
  rw [update_throughput_history_const1000]
  norm_num [Adaptive_Segment_Manager.calculate_probability]

/-! ## Claim theorems -/

/-- C1: the claim states that on every Ready-state segment request the
controller syncs the tracker's window, invokes the decision engine for
`newIndex`, sets `currentIndex = newIndex`, attaches the level identifier and
forwards the request downward.  The code instead calls the nonexistent method
`update_quality` (the engine's method is named `update_video_quality`), so the
handler raises `AttributeError` on every invocation, never producing an index
or forwarding the request. -/
theorem C1_segment_request_always_raises (st : r2a_Ingrid) (now : ℚ) (msg : ℕ) :
    st.process_segment_size_request now msg =
      Except.error "AttributeError: update_quality" := rfl

/-- C2: for every level set with at least one element, every
`currentIndex ∈ [0, K-1]` and every throughput window, the decision pipeline
returns a valid index into the level set. -/
theorem C2_decide_index_bound (window : List ℚ) (c : ℕ) (levels : List ℕ)
    (hne : levels ≠ []) (hc : c < levels.length) :
    ∃ j, Adaptive_Segment_Manager.decide window c levels = some j ∧
      j < levels.length := by
  rw [Adaptive_Segment_Manager.decide_eq window c levels hne hc]
  refine ⟨_, rfl, ?_⟩
  have hK : 1 ≤ levels.length := List.length_pos.mpr hne
  omega

/-- Witness for C2 at the concrete input `window = []`, `currentIndex = 0`,
`levels = [3]`. -/
theorem C2_decide_index_bound_witness :
    ∃ j, Adaptive_Segment_Manager.decide [] 0 [3] = some j ∧
      j < [3].length :=
  C2_decide_index_bound [] 0 [3] (by simp) (by norm_num)

/-- C6: for non-negative mean and variability the probability
`mean / (mean + variability)` lies in `[0, 1]`, and it is 0 whenever the
denominator `mean + variability` is 0. -/
theorem C6_probability_range (s : Adaptive_Segment_Manager)
    (hm : 0 ≤ s.throughput_mean) (hv : 0 ≤ s.throughput_variability) :
    (0 ≤ s.calculate_probability ∧ s.calculate_probability ≤ 1) ∧
      (s.throughput_mean + s.throughput_variability = 0 →
        s.calculate_probability = 0) :=
  ⟨Adaptive_Segment_Manager.calculate_probability_bounds s hm hv,
    Adaptive_Segment_Manager.calculate_probability_of_zero s⟩

/-- Witness for C6 at the freshly initialised manager (mean 0,
variability 0). -/
theorem C6_probability_range_witness :
    (0 ≤ (Adaptive_Segment_Manager.init 5).calculate_probability ∧
        (Adaptive_Segment_Manager.init 5).calculate_probability ≤ 1) ∧
      ((Adaptive_Segment_Manager.init 5).throughput_mean +
          (Adaptive_Segment_Manager.init 5).throughput_variability = 0 →
        (Adaptive_Segment_Manager.init 5).calculate_probability = 0) :=
  C6_probability_range (Adaptive_Segment_Manager.init 5) le_rfl le_rfl

/-- C7: deciding against an empty level set is a no-op: the current index is
returned unchanged, for any window and any index. -/
theorem C7_decide_empty_levels (window : List ℚ) (idx : ℕ) :
    Adaptive_Segment_Manager.decide window idx [] = some idx := rfl

/-- C9 counterexample: the claim states teardown resets `currentIndex` to 0,
but `release_allocated_resources` assigns Python `None`
(`self.active_quality_level = None`, line 114): from a state with active
level 2, the level after teardown is not 0. -/
theorem C9_teardown_counterexample :
    (r2a_Ingrid.release_allocated_resources
      { ready_example with active_quality_level := some 2 }).active_quality_level
      ≠ some 0 := by
  simp [r2a_Ingrid.release_allocated_resources]

/-- C9 (amended): on teardown from any state the controller discards the
throughput window and clears `currentIndex` (and the request timestamp) to
`None` — not 0; the reset of `currentIndex` to 0 is performed by
`initialize_system_resources`, not by teardown. -/
theorem C9_teardown_amended (st : r2a_Ingrid) :
    st.release_allocated_resources.recent_throughputs = [] ∧
      st.release_allocated_resources.active_quality_level = none ∧
      st.release_allocated_resources.request_start_time = none ∧
      st.initialize_system_resources.active_quality_level = some 0 :=
  ⟨rfl, rfl, rfl, rfl⟩

/-- C5: for every sequence of recorded samples, the window kept by
`add_throughput_record` (capacity 5, starting from the empty history of
`__init__`) has length at most 5, and it always equals the most recent
(at most 5) samples in arrival order — strict FIFO eviction of the oldest.
Every prefix of a longer sequence is itself such a sequence, so the length
bound holds at every intermediate point as well. -/
theorem C5_window_fifo_bound (xs : List ℚ) :
    (xs.foldl (r2a_Ingrid.add_throughput_record 5) []).length ≤ 5 ∧
      xs.foldl (r2a_Ingrid.add_throughput_record 5) [] =
        xs.drop (xs.length - 5) := by
  refine ⟨?_, foldl_add_throughput_record xs⟩
  rw [foldl_add_throughput_record xs, List.length_drop]
  omega

/-- C4 counterexample: the claim states an empty-window decision leaves the
index unchanged (via `tau = 0`), but at `currentIndex = 1` with two levels
the decision returns 0, not 1: with `p = 0`, tau is
`(1-p)*(current - prev) = 1`, not 0. -/
theorem C4_empty_window_counterexample :
    Adaptive_Segment_Manager.decide [] 1 [10, 20] = some 0 ∧
      Adaptive_Segment_Manager.decide [] 1 [10, 20] ≠ some 1 := by
  have h := decide_nil_window 1 [10, 20] (by simp) (by norm_num)
  exact ⟨h, by rw [h]; simp⟩

/-- C4 (amended): a decision with an empty throughput window yields
mean = 0, variability = 0, hence p = 0 and theta = 0, but
`tau = currentIndex - max(0, currentIndex - 1)` (1 whenever
`currentIndex ≥ 1`), so the decision returns `max(0, currentIndex - 1)`:
one step down, and `currentIndex` unchanged exactly when it is 0. -/
theorem C4_empty_window_amended (c : ℕ) (levels : List ℕ)
    (h : levels ≠ []) (hc : c < levels.length) :
    ((Adaptive_Segment_Manager.init 5).update_throughput_history
        []).throughput_mean = 0 ∧
      ((Adaptive_Segment_Manager.init 5).update_throughput_history
        []).throughput_variability = 0 ∧
      ((Adaptive_Segment_Manager.init 5).update_throughput_history
        []).calculate_probability = 0 ∧
      ((Adaptive_Segment_Manager.init 5).update_throughput_history
          []).calculate_tau_and_theta c
          ((List.range levels.length).map (fun i : ℕ => (i : ℚ))) =
        some ((c : ℚ) - ((c - 1 : ℕ) : ℚ), 0) ∧
      Adaptive_Segment_Manager.decide [] c levels = some (c - 1) := by
  rw [update_throughput_history_nil]
  have hp : (Adaptive_Segment_Manager.init 5).calculate_probability = 0 := by
    norm_num [Adaptive_Segment_Manager.calculate_probability,
      Adaptive_Segment_Manager.init]
  refine ⟨rfl, rfl, hp, ?_, decide_nil_window c levels h hc⟩
  rw [Adaptive_Segment_Manager.calculate_tau_and_theta_range_eq _ c
    levels.length hc, hp]
  norm_num

/-- Witness for the amended C4 at `currentIndex = 1`, `levels = [10, 20]`. -/
theorem C4_empty_window_amended_witness :
    ((Adaptive_Segment_Manager.init 5).update_throughput_history
        []).throughput_mean = 0 ∧
      ((Adaptive_Segment_Manager.init 5).update_throughput_history
        []).throughput_variability = 0 ∧
      ((Adaptive_Segment_Manager.init 5).update_throughput_history
        []).calculate_probability = 0 ∧
      ((Adaptive_Segment_Manager.init 5).update_throughput_history
          []).calculate_tau_and_theta 1
          ((List.range ([10, 20] : List ℕ).length).map (fun i : ℕ => (i : ℚ))) =
        some ((1 : ℚ) - ((1 - 1 : ℕ) : ℚ), 0) ∧
      Adaptive_Segment_Manager.decide [] 1 [10, 20] = some (1 - 1) :=
  C4_empty_window_amended 1 [10, 20] (by simp) (by norm_num)

/-- C8: a response whose measured elapsed time is zero or negative records no
throughput sample: both response handlers leave `recent_throughputs` (and
hence the statistics a later sync would derive from it) unchanged and still
forward the response upward. -/
theorem C8_skip_nonpositive_elapsed (st : r2a_Ingrid)
    (now t0 bit_length : ℚ) (msg : ℕ) (qi : List ℕ)
    (hrt : st.request_start_time = some t0) (h : now - t0 ≤ 0) :
    (∃ st', st.process_segment_size_response now bit_length msg =
        Except.ok (st', [Action.send_up msg]) ∧
      st'.recent_throughputs = st.recent_throughputs ∧
      (Adaptive_Segment_Manager.init 5).update_throughput_history
          st'.recent_throughputs =
        (Adaptive_Segment_Manager.init 5).update_throughput_history
          st.recent_throughputs) ∧
    (∃ st', st.process_xml_response now qi bit_length msg =
        Except.ok (st', [Action.send_up msg]) ∧
      st'.recent_throughputs = st.recent_throughputs ∧
      (Adaptive_Segment_Manager.init 5).update_throughput_history
          st'.recent_throughputs =
        (Adaptive_Segment_Manager.init 5).update_throughput_history
          st.recent_throughputs) := by
  constructor
  · unfold r2a_Ingrid.process_segment_size_response
    rw [hrt]
    dsimp only
    rw [if_neg (by linarith)]
    exact ⟨st, rfl, rfl, rfl⟩
  · unfold r2a_Ingrid.process_xml_response
    dsimp only
    rw [hrt]
    dsimp only
    rw [if_neg (by linarith)]
    exact ⟨_, rfl, rfl, rfl⟩

/-- Witness for C8: the `ready_example` state with a response arriving at the
very timestamp the request was issued (`elapsed = 0`). -/
theorem C8_skip_nonpositive_elapsed_witness :
    (∃ st', ready_example.process_segment_size_response 2 500 7 =
        Except.ok (st', [Action.send_up 7]) ∧
      st'.recent_throughputs = ready_example.recent_throughputs ∧
      (Adaptive_Segment_Manager.init 5).update_throughput_history
          st'.recent_throughputs =
        (Adaptive_Segment_Manager.init 5).update_throughput_history
          ready_example.recent_throughputs) ∧
    (∃ st', ready_example.process_xml_response 2 [1, 2] 500 7 =
        Except.ok (st', [Action.send_up 7]) ∧
      st'.recent_throughputs = ready_example.recent_throughputs ∧
      (Adaptive_Segment_Manager.init 5).update_throughput_history
          st'.recent_throughputs =
        (Adaptive_Segment_Manager.init 5).update_throughput_history
          ready_example.recent_throughputs) :=
  C8_skip_nonpositive_elapsed ready_example 2 2 500 7 [1, 2] rfl (by norm_num)

/-- C3: with the constant window `[1000, 1000, 1000, 1000, 1000]` and a
3-level quality set, the statistics are mean 1000 and variance 0, so p = 1;
from index 0 tau = 0 and theta = 1 and the decision is 1; from index 1 the
decision is 2; from index 2 (the top level) it stays 2 — converged. -/
theorem C3_constant_window_convergence :
    (((Adaptive_Segment_Manager.init 5).update_throughput_history
        [1000, 1000, 1000, 1000, 1000]).throughput_mean = 1000 ∧
      ((Adaptive_Segment_Manager.init 5).update_throughput_history
        [1000, 1000, 1000, 1000, 1000]).throughput_variability = 0 ∧
      ((Adaptive_Segment_Manager.init 5).update_throughput_history
        [1000, 1000, 1000, 1000, 1000]).calculate_probability = 1 ∧
      ((Adaptive_Segment_Manager.init 5).update_throughput_history
          [1000, 1000, 1000, 1000, 1000]).calculate_tau_and_theta 0
          ((List.range 3).map (fun i : ℕ => (i : ℚ))) = some (0, 1)) ∧
    Adaptive_Segment_Manager.decide [1000, 1000, 1000, 1000, 1000] 0
      [100, 200, 300] = some 1 ∧
    Adaptive_Segment_Manager.decide [1000, 1000, 1000, 1000, 1000] 1
      [100, 200, 300] = some 2 ∧
    Adaptive_Segment_Manager.decide [1000, 1000, 1000, 1000, 1000] 2
      [100, 200, 300] = some 2 := by
  refine ⟨⟨?_, ?_, calculate_probability_const1000, ?_⟩, ?_, ?_, ?_⟩
  · rw [update_throughput_history_const1000]
  · rw [update_throughput_history_const1000]
  · rw [Adaptive_Segment_Manager.calculate_tau_and_theta_range_eq _ 0 3
      (by norm_num), calculate_probability_const1000]
    norm_num [min_def]
  · rw [Adaptive_Segment_Manager.decide_eq _ _ _ (by simp) (by norm_num),
      calculate_probability_const1000]
    norm_num [min_def, pyRound_one]
  · rw [Adaptive_Segment_Manager.decide_eq _ _ _ (by simp) (by norm_num),
      calculate_probability_const1000]
    norm_num [min_def, pyRound_two]
    rfl
  · rw [Adaptive_Segment_Manager.decide_eq _ _ _ (by simp) (by norm_num),
      calculate_probability_const1000]
    norm_num [min_def, pyRound_two]
    rfl

/-- C10: for a window of non-negative samples, a non-empty level set and a
valid current index, tau and theta each lie in `[0, 1]`, so the decision
moves at most one quality level away from the current index. -/
theorem C10_single_step_bound (window : List ℚ) (c : ℕ) (levels : List ℕ)
    (hw : ∀ x ∈ window, 0 ≤ x) (hne : levels ≠ []) (hc : c < levels.length) :
    ∃ tau theta j,
      ((Adaptive_Segment_Manager.init 5).update_throughput_history
          window).calculate_tau_and_theta c
          ((List.range levels.length).map (fun i : ℕ => (i : ℚ))) =
        some (tau, theta) ∧
      0 ≤ tau ∧ tau ≤ 1 ∧ 0 ≤ theta ∧ theta ≤ 1 ∧
      Adaptive_Segment_Manager.decide window c levels = some j ∧
      (c : ℤ) - 1 ≤ (j : ℤ) ∧ (j : ℤ) ≤ (c : ℤ) + 1 := by
  obtain ⟨hm, hv⟩ := Adaptive_Segment_Manager.update_throughput_history_nonneg
    (Adaptive_Segment_Manager.init 5) window hw
  obtain ⟨hp0, hp1⟩ :=
    Adaptive_Segment_Manager.calculate_probability_bounds _ hm hv
  have hTT := Adaptive_Segment_Manager.calculate_tau_and_theta_range_eq
    ((Adaptive_Segment_Manager.init 5).update_throughput_history window)
    c levels.length hc
  have hdec := Adaptive_Segment_Manager.decide_eq window c levels hne hc
  have hminlo : c ≤ min (levels.length - 1) (c + 1) :=
    le_min (by omega) (by omega)
  have hminhi : min (levels.length - 1) (c + 1) ≤ c + 1 := min_le_right _ _
  have hd1a : (0 : ℚ) ≤ (c : ℚ) - ((c - 1 : ℕ) : ℚ) := by
    have h := (Nat.cast_le (α := ℚ)).mpr (Nat.sub_le c 1)
    linarith
  have hd1b : (c : ℚ) - ((c - 1 : ℕ) : ℚ) ≤ 1 := by
    rcases Nat.eq_zero_or_pos c with h0 | h1
    · subst h0; norm_num
    · rw [Nat.cast_sub h1]; norm_num
  have hd2a : (0 : ℚ) ≤ ((min (levels.length - 1) (c + 1) : ℕ) : ℚ) - (c : ℚ) := by
    have h := (Nat.cast_le (α := ℚ)).mpr hminlo
    linarith
  have hd2b : ((min (levels.length - 1) (c + 1) : ℕ) : ℚ) - (c : ℚ) ≤ 1 := by
    have h := (Nat.cast_le (α := ℚ)).mpr hminhi
    have hcast : ((c + 1 : ℕ) : ℚ) = (c : ℚ) + 1 := by push_cast; ring
    rw [hcast] at h
    linarith
  generalize hP : ((Adaptive_Segment_Manager.init 5).update_throughput_history
      window).calculate_probability = p at hp0 hp1 hTT hdec
  set d1 : ℚ := (c : ℚ) - ((c - 1 : ℕ) : ℚ) with hd1def
  set d2 : ℚ := ((min (levels.length - 1) (c + 1) : ℕ) : ℚ) - (c : ℚ) with hd2def
  have htau0 : (0 : ℚ) ≤ (1 - p) * d1 := mul_nonneg (by linarith) hd1a
  have htau1 : (1 - p) * d1 ≤ 1 := by
    have h := mul_le_mul (show (1 : ℚ) - p ≤ 1 by linarith) hd1b hd1a (by norm_num)
    simpa using h
  have hth0 : (0 : ℚ) ≤ p * d2 := mul_nonneg hp0 hd2a
  have hth1 : p * d2 ≤ 1 := by
    have h := mul_le_mul hp1 hd2b hd2a (by norm_num)
    simpa using h
  set X : ℚ := (c : ℚ) - (1 - p) * d1 + p * d2 with hXdef
  have hXlo : (c : ℚ) - 1 ≤ X := by rw [hXdef]; linarith
  have hXhi : X ≤ (c : ℚ) + 1 := by rw [hXdef]; linarith
  have hle := pyRound_le X
  have hge := le_pyRound X
  have hrlo : (c : ℤ) - 1 ≤ pyRound X := by
    have h2 : (((c : ℤ) - 2 : ℤ) : ℚ) < (pyRound X : ℚ) := by push_cast; linarith
    have h3 : ((c : ℤ) - 2 : ℤ) < pyRound X := by exact_mod_cast h2
    omega
  have hrhi : pyRound X ≤ (c : ℤ) + 1 := by
    have h2 : (pyRound X : ℚ) < (((c : ℤ) + 2 : ℤ) : ℚ) := by push_cast; linarith
    have h3 : pyRound X < ((c : ℤ) + 2 : ℤ) := by exact_mod_cast h2
    omega
  have hcK : (c : ℤ) < (levels.length : ℤ) := by exact_mod_cast hc
  refine ⟨_, _, _, hTT, htau0, htau1, hth0, hth1, hdec, ?_, ?_⟩
  · omega
  · omega

/-- Witness for C10 at `window = [5]`, `currentIndex = 1`,
`levels = [10, 20]`. -/
theorem C10_single_step_bound_witness :
    ∃ tau theta j,
      ((Adaptive_Segment_Manager.init 5).update_throughput_history
          [5]).calculate_tau_and_theta 1
          ((List.range ([10, 20] : List ℕ).length).map (fun i : ℕ => (i : ℚ))) =
        some (tau, theta) ∧
      0 ≤ tau ∧ tau ≤ 1 ∧ 0 ≤ theta ∧ theta ≤ 1 ∧
      Adaptive_Segment_Manager.decide [5] 1 [10, 20] = some j ∧
      ((1 : ℕ) : ℤ) - 1 ≤ (j : ℤ) ∧ (j : ℤ) ≤ ((1 : ℕ) : ℤ) + 1 :=
  C10_single_step_bound [5] 1 [10, 20] (by norm_num) (by simp) (by norm_num)


end RedesR2A
